import Mathlib

/-!
Shallow embedding of the ESP32 rotating-display program (`main.py`).

The program keeps three independently refreshed caches (weather, HF
propagation, UTC time), rotates three slides on a fixed 10-second cadence,
and renders text through a 5x7 bitmap font onto a logically landscape
(320x240) canvas that is mapped onto a physically portrait (240x320)
display.

Modelling conventions:
- MicroPython integers and timestamps become `Int`; scale factors and
  colors become `Nat`.
- The external fetch functions (`fetch_weather`, `fetch_hf`,
  `fetch_utc_http`) return `None` on failure; each update function takes
  the outcome of the fetch it would perform as an `Option` argument, and
  additionally returns a `Bool` recording whether the fetch was invoked
  at all (`false` = the early-return branch was taken and no fetch
  happened).
- A pixel write (`disp.set_window` followed by the two color bytes) is
  reified as a `PixelWrite` value; `_draw_pixel` returns `none` when it
  issues no write.
- MicroPython strings are modelled as lists of code points (`List Nat`);
  `str.upper()` is the ASCII uppercase map.
-/

namespace RotatingDisplay

/-- Color constants from `main.py` (RGB565 packed values). -/
def WHITE : Nat := 0xFFFF

def BLACK : Nat := 0x0000

def YELLOW : Nat := 0xFFE0

def CYAN : Nat := 0x07FF

def GREEN : Nat := 0x07E0

def RED : Nat := 0xF800

/-- Local time offset from UTC in hours (`LOCAL_OFFSET_HOURS = -5`). -/
def LOCAL_OFFSET_HOURS : Int := -5

/-- Logical canvas width (`LOGICAL_WIDTH = 320`). -/
def LOGICAL_WIDTH : Int := 320

/-- Logical canvas height (`LOGICAL_HEIGHT = 240`). -/
def LOGICAL_HEIGHT : Int := 240

/-- The display object: only its `width` and `height` attributes are read
by the embedded code. -/
structure Display where
  width : Int
  height : Int
deriving DecidableEq, Repr

/-- The physical ILI9341 panel used by the program: 240 wide, 320 tall
(portrait), as stated by the comments in `main.py`. -/
def ILI9341 : Display := ⟨240, 320⟩

/-- One external pixel write: the `set_window(x, y, x, y)` coordinates and
the two data bytes sent over SPI (high byte first). -/
structure PixelWrite where
  x_phys : Int
  y_phys : Int
  hi : Nat
  lo : Nat
deriving DecidableEq, Repr

/-- Predicate: `(x, y)` passes the logical-canvas bounds check of
`_draw_pixel`. -/
def in_logical_bounds (x y : Int) : Prop :=
  0 ≤ x ∧ x < LOGICAL_WIDTH ∧ 0 ≤ y ∧ y < LOGICAL_HEIGHT

instance (x y : Int) : Decidable (in_logical_bounds x y) := by
  unfold in_logical_bounds; infer_instance

/-- `_draw_pixel(disp, x, y, color)` from `main.py` (lines 209-231):
bounds-check in logical coordinates, rotate 90 degrees clockwise
(`x_phys = y`, `y_phys = disp.height - 1 - x`), bounds-check against the
physical geometry, then issue one pixel write.  Returns the write issued,
or `none` when either check takes the early-return branch. -/
def draw_pixel (disp : Display) (x y : Int) (color : Nat) : Option PixelWrite :=
  if x < 0 ∨ y < 0 ∨ x ≥ LOGICAL_WIDTH ∨ y ≥ LOGICAL_HEIGHT then
    none
  else
    let x_phys := y
    let y_phys := disp.height - 1 - x
    if x_phys < 0 ∨ y_phys < 0 ∨ x_phys ≥ disp.width ∨ y_phys ≥ disp.height then
      none
    else
      some ⟨x_phys, y_phys, color / 256 % 256, color % 256⟩

/-- The `_FONT_5X7` glyph table, keyed by code point (the keys of the
Python dict are the single characters space, hyphen, colon, `0`-`9`,
`A`-`Z`). Each glyph is the list of its five column bit masks. -/
def _FONT_5X7 : Nat → Option (List Nat)
  | 32 => some [0x00, 0x00, 0x00, 0x00, 0x00]
  | 45 => some [0x00, 0x08, 0x08, 0x08, 0x00]
  | 58 => some [0x00, 0x14, 0x00, 0x14, 0x00]
  | 48 => some [0x1E, 0x11, 0x13, 0x15, 0x1E]
  | 49 => some [0x00, 0x12, 0x1F, 0x10, 0x00]
  | 50 => some [0x12, 0x19, 0x15, 0x13, 0x00]
  | 51 => some [0x11, 0x15, 0x15, 0x0A, 0x00]
  | 52 => some [0x07, 0x04, 0x04, 0x1F, 0x00]
  | 53 => some [0x17, 0x15, 0x15, 0x09, 0x00]
  | 54 => some [0x0E, 0x15, 0x15, 0x08, 0x00]
  | 55 => some [0x01, 0x01, 0x1D, 0x03, 0x00]
  | 56 => some [0x0A, 0x15, 0x15, 0x0A, 0x00]
  | 57 => some [0x02, 0x15, 0x15, 0x0E, 0x00]
  | 65 => some [0x1E, 0x05, 0x05, 0x1E, 0x00]
  | 66 => some [0x1F, 0x15, 0x15, 0x0A, 0x00]
  | 67 => some [0x0E, 0x11, 0x11, 0x11, 0x00]
  | 68 => some [0x1F, 0x11, 0x11, 0x0E, 0x00]
  | 69 => some [0x1F, 0x15, 0x15, 0x11, 0x00]
  | 70 => some [0x1F, 0x05, 0x05, 0x01, 0x00]
  | 71 => some [0x0E, 0x11, 0x15, 0x1D, 0x00]
  | 72 => some [0x1F, 0x04, 0x04, 0x1F, 0x00]
  | 73 => some [0x11, 0x1F, 0x11, 0x00, 0x00]
  | 74 => some [0x08, 0x10, 0x10, 0x0F, 0x00]
  | 75 => some [0x1F, 0x04, 0x0A, 0x11, 0x00]
  | 76 => some [0x1F, 0x10, 0x10, 0x10, 0x00]
  | 77 => some [0x1F, 0x02, 0x04, 0x02, 0x1F]
  | 78 => some [0x1F, 0x02, 0x04, 0x1F, 0x00]
  | 79 => some [0x0E, 0x11, 0x11, 0x0E, 0x00]
  | 80 => some [0x1F, 0x05, 0x05, 0x02, 0x00]
  | 81 => some [0x0E, 0x11, 0x19, 0x1E, 0x00]
  | 82 => some [0x1F, 0x05, 0x0D, 0x12, 0x00]
  | 83 => some [0x12, 0x15, 0x15, 0x09, 0x00]
  | 84 => some [0x01, 0x1F, 0x01, 0x01, 0x00]
  | 85 => some [0x0F, 0x10, 0x10, 0x0F, 0x00]
  | 86 => some [0x07, 0x08, 0x10, 0x08, 0x07]
  | 87 => some [0x1F, 0x08, 0x04, 0x08, 0x1F]
  | 88 => some [0x1B, 0x04, 0x04, 0x1B, 0x00]
  | 89 => some [0x03, 0x04, 0x18, 0x04, 0x03]
  | 90 => some [0x19, 0x15, 0x13, 0x11, 0x00]
  | _ => none

/-- MicroPython `str.upper()` on one code point (ASCII case map). -/
def upper (c : Nat) : Nat :=
  if 97 ≤ c ∧ c ≤ 122 then c - 32 else c

/-- The logical coordinates of the scaled glyph pixels that `_draw_char`
plots for a glyph `pattern` at `(x, y)`: column-major over the five
columns, row 0..6, each source pixel replicated into a `scale` x `scale`
block (the `dx`/`dy` loops). -/
def char_pixels (x y : Int) (scale : Nat) (pattern : List Nat) : List (Int × Int) :=
  (List.range 5).flatMap fun col =>
    (List.range 7).flatMap fun row =>
      if Nat.testBit (pattern.getD col 0) row then
        (List.range scale).flatMap fun dx =>
          (List.range scale).map fun dy =>
            (x + (col * scale + dx : Nat), y + (row * scale + dy : Nat))
      else []

/-- `_draw_char(disp, ch, x, y, color, scale)` from `main.py` (lines
234-245): look the glyph up under `ch.upper()`; an unknown character
draws nothing; either way the cursor advance `6 * scale` is returned.
The first component is the list of pixel writes issued, in order. -/
def draw_char (disp : Display) (ch : Nat) (x y : Int) (color : Nat) (scale : Nat) :
    List PixelWrite × Nat :=
  match _FONT_5X7 (upper ch) with
  | none => ([], 6 * scale)
  | some pattern =>
      ((char_pixels x y scale pattern).filterMap fun p => draw_pixel disp p.1 p.2 color,
       6 * scale)

/-- `draw_text(disp, text, x, y, color, scale)` from `main.py` (lines
248-251): draw each character, advancing the cursor by what `_draw_char`
returns.  Result: all pixel writes in order, and the final cursor. -/
def draw_text (disp : Display) : List Nat → Int → Int → Nat → Nat → List PixelWrite × Int
  | [], cx, _, _, _ => ([], cx)
  | ch :: rest, cx, y, color, scale =>
    let r := draw_char disp ch cx y color scale
    let rr := draw_text disp rest (cx + (r.2 : Int)) y color scale
    (r.1 ++ rr.1, rr.2)

/-- A weather or HF cache entry: `{"data": ..., "last_fetch": ...}`. -/
structure CacheState (α : Type) where
  data : Option α
  last_fetch : Int

/-- The UTC cache entry: `{"ts": ..., "last_sync": ...}`. -/
structure UtcState where
  ts : Option Int
  last_sync : Int
deriving DecidableEq, Repr

/-- `update_weather(now)` from `main.py` (lines 276-284), with the
outcome of `fetch_weather()` passed in.  Skips (returning `false`) when
`last_fetch != 0` and fewer than 600 seconds have elapsed; otherwise
performs the fetch, keeps the old data on a `None` result, and stamps
`last_fetch = now`. -/
def update_weather {α : Type} (fetched : Option α) (now : Int) (st : CacheState α) :
    CacheState α × Bool :=
  let last := st.last_fetch
  if last ≠ 0 ∧ now - last < 600 then
    (st, false)
  else
    let st1 := match fetched with
      | some d => { st with data := some d }
      | none => st
    ({ st1 with last_fetch := now }, true)

/-- `update_hf(now)` from `main.py` (lines 287-295): same shape as the
weather update with a 1800-second interval. -/
def update_hf {α : Type} (fetched : Option α) (now : Int) (st : CacheState α) :
    CacheState α × Bool :=
  let last := st.last_fetch
  if last ≠ 0 ∧ now - last < 1800 then
    (st, false)
  else
    let st1 := match fetched with
      | some d => { st with data := some d }
      | none => st
    ({ st1 with last_fetch := now }, true)

/-- `update_utc(now)` from `main.py` (lines 298-316), with the outcome of
`fetch_utc_http()` passed in.  Skips when a timestamp is cached and
`now - last_sync <= 3600`, or when no timestamp is cached, `last_sync != 0`
and `now - last_sync < 30`; otherwise fetches, always stamps
`last_sync = now`, and stores the timestamp only when it is not `None`. -/
def update_utc (fetched : Option Int) (now : Int) (st : UtcState) : UtcState × Bool :=
  let last := st.last_sync
  let ts_current := st.ts
  if ts_current.isSome ∧ now - last ≤ 3600 then
    (st, false)
  else if ts_current.isNone ∧ last ≠ 0 ∧ now - last < 30 then
    (st, false)
  else
    let st1 := { st with last_sync := now }
    match fetched with
    | some t => ({ st1 with ts := some t }, true)
    | none => (st1, true)

/-- The hours field of `time.gmtime(t)`. -/
def gm_hour (t : Int) : Int := t / 3600 % 24

/-- The minutes field of `time.gmtime(t)`. -/
def gm_min (t : Int) : Int := t / 60 % 60

/-- The seconds field of `time.gmtime(t)`. -/
def gm_sec (t : Int) : Int := t % 60

/-- What the UTC slide shows: either the "SYNCING..." placeholder or a
clock face with UTC and local hh:mm:ss fields. -/
inductive UtcRender where
  | syncing
  | clock (utc_h utc_m utc_s loc_h loc_m loc_s : Int)
deriving DecidableEq, Repr

/-- `draw_utc_slide(disp)` from `main.py` (lines 396-429), abstracted to
the time fields it renders.  `rtc_now` is the live RTC reading
(`time.gmtime()` / `time.time()`) taken at the moment of the render; the
cached `ts` is only tested against `None`, never displayed. -/
def draw_utc_slide (st : UtcState) (rtc_now : Int) : UtcRender :=
  if st.ts.isNone then
    .syncing
  else
    let offset_sec := LOCAL_OFFSET_HOURS * 3600
    let t_local := rtc_now + offset_sec
    .clock (gm_hour rtc_now) (gm_min rtc_now) (gm_sec rtc_now)
      (gm_hour t_local) (gm_min t_local) (gm_sec t_local)

/-- The three slides, in rotation order (`SLIDES = ["weather", "hf", "utc"]`). -/
inductive Slide where
  | weather
  | hf
  | utc
deriving DecidableEq, Repr

/-- `SLIDES` from `main.py` (line 434). -/
def SLIDES : List Slide := [.weather, .hf, .utc]

/-- `SLIDE_DURATION = 10` seconds (`main.py` line 435). -/
def SLIDE_DURATION : Int := 10

/-- The mutable program state owned by `main`'s loop: the three cache
entries plus the rotator variables `current_index` and
`last_slide_change`. -/
structure MainState (α β : Type) where
  weather : CacheState α
  hf : CacheState β
  utc : UtcState
  current_index : Nat
  last_slide_change : Int

/-- The outcomes of the three external fetches an iteration might
perform. -/
structure FetchResults (α β : Type) where
  weather : Option α
  hf : Option β
  utc : Option Int

/-- One iteration of `main`'s `while True` loop (`main.py` lines 472-494):
refresh the three caches, then, exactly when
`now - last_slide_change >= SLIDE_DURATION`, advance `current_index`
modulo `len(SLIDES)`, redraw the (single) new slide and stamp
`last_slide_change = now`.  The second component is the slide drawn this
iteration (`none`: no redraw happened). -/
def loop_iter {α β : Type} (f : FetchResults α β) (now : Int) (st : MainState α β) :
    MainState α β × Option Slide :=
  let w := (update_weather f.weather now st.weather).1
  let h := (update_hf f.hf now st.hf).1
  let u := (update_utc f.utc now st.utc).1
  if now - st.last_slide_change ≥ SLIDE_DURATION then
    let i := (st.current_index + 1) % SLIDES.length
    ({ weather := w, hf := h, utc := u, current_index := i, last_slide_change := now },
     SLIDES[i]?)
  else
    ({ st with weather := w, hf := h, utc := u }, none)

/-- A raw dict field as `_hf_quality` sees it: absent/empty (falsy, so
`or 0` substitutes 0), a numeric string with value `q`, or a non-numeric
string on which `float()` raises. -/
inductive FieldVal where
  | missing
  | numeric (q : Rat)
  | malformed
deriving DecidableEq

/-- The value `float(data.get(key) or 0)` produces inside the
`try`/`except` of `_hf_quality`: 0 for an absent, empty or non-numeric
field. -/
def parse_number : FieldVal → Rat
  | .missing => 0
  | .numeric q => q
  | .malformed => 0

/-- `_hf_quality(data)` from `main.py` (lines 105-126), taking the
`solarflux` and `kindex` fields: POOR/RED when `k >= 5 or sfi < 80`,
else GOOD/GREEN when `k <= 2 and sfi >= 120`, else FAIR/YELLOW. -/
def _hf_quality (solarflux kindex : FieldVal) : String × Nat :=
  let sfi := parse_number solarflux
  let k := parse_number kindex
  if k ≥ 5 ∨ sfi < 80 then
    ("POOR", RED)
  else if k ≤ 2 ∧ sfi ≥ 120 then
    ("GOOD", GREEN)
  else
    ("FAIR", YELLOW)

/-! ## Claims -/

/-- C1: Cache monotonicity.  For every fetch outcome, the cached value of
each source (weather data, HF data, UTC timestamp) is never replaced or
cleared by a fetch returning `none`: after any call to `update_weather`,
`update_hf` or `update_utc`, the cached value either is unchanged or
equals the non-`none` result of the fetch performed in that call. -/
theorem C1_cache_monotonicity (α β : Type) (fw : Option α) (fh : Option β) (fu : Option Int)
    (now : Int) (sw : CacheState α) (sh : CacheState β) (su : UtcState) :
    ((update_weather fw now sw).1.data = sw.data ∨
      ∃ d, fw = some d ∧ (update_weather fw now sw).1.data = some d) ∧
    ((update_hf fh now sh).1.data = sh.data ∨
      ∃ d, fh = some d ∧ (update_hf fh now sh).1.data = some d) ∧
    ((update_utc fu now su).1.ts = su.ts ∨
      ∃ t, fu = some t ∧ (update_utc fu now su).1.ts = some t) := by
  refine ⟨?_, ?_, ?_⟩
  · simp only [update_weather]
    split_ifs with h
    · exact Or.inl rfl
    · cases fw with
      | none => exact Or.inl rfl
      | some d => exact Or.inr ⟨d, rfl, rfl⟩
  · simp only [update_hf]
    split_ifs with h
    · exact Or.inl rfl
    · cases fh with
      | none => exact Or.inl rfl
      | some t => exact Or.inr ⟨t, rfl, rfl⟩
  · simp only [update_utc]
    split_ifs with h1 h2
    · exact Or.inl rfl
    · exact Or.inl rfl
    · cases fu with
      | none => exact Or.inl rfl
      | some t => exact Or.inr ⟨t, rfl, rfl⟩

/-- C2 counterexample: at `now = 3600` with a cached timestamp and
`last_sync = 0`, exactly 3600 seconds (at least 3600, as the claim
requires a fetch) have elapsed, yet `update_utc` takes its skip branch
and does not invoke the fetch: the skip guard is `now - last_sync ≤ 3600`,
not `< 3600`. -/
theorem C2_counterexample :
    (update_utc (some 99) 3600 ⟨some 5, 0⟩).2 = false ∧
    (3600 : Int) - (0 : Int) ≥ 3600 := by
  constructor
  · rfl
  · decide

/-- C2 (amended): `update_utc now` skips the fetch exactly when either
(a) a timestamp is cached and at most 3600 seconds have elapsed since
`last_sync` (so it invokes the fetch whenever a timestamp is cached and
`now - last_sync` is strictly greater than 3600), or (b) no timestamp is
cached, `last_sync` is nonzero and fewer than 30 seconds have elapsed;
a skipped call leaves the state unchanged, and `last_sync` is set to
`now` on every attempt, whether the fetch succeeds or fails. -/
theorem C2_utc_refresh_asymmetry (fu : Option Int) (now : Int) (st : UtcState) :
    ((update_utc fu now st).2 = false ↔
      (st.ts.isSome ∧ now - st.last_sync ≤ 3600) ∨
      (st.ts.isNone ∧ st.last_sync ≠ 0 ∧ now - st.last_sync < 30)) ∧
    ((update_utc fu now st).2 = false → (update_utc fu now st).1 = st) ∧
    ((update_utc fu now st).2 = true → (update_utc fu now st).1.last_sync = now) := by
  simp only [update_utc]
  split_ifs with h1 h2
  · exact ⟨iff_of_true rfl (Or.inl h1), fun _ => rfl, fun hc => by simp at hc⟩
  · exact ⟨iff_of_true rfl (Or.inr h2), fun _ => rfl, fun hc => by simp at hc⟩
  · cases fu with
    | none =>
        exact ⟨iff_of_false (by simp) (by tauto), fun hc => by simp at hc, fun _ => rfl⟩
    | some t =>
        exact ⟨iff_of_false (by simp) (by tauto), fun hc => by simp at hc, fun _ => rfl⟩

/-- C4: Refresh gating for the weather and HF sources.  `update_weather`
(resp. `update_hf`) skips the external fetch exactly when `last_fetch` is
nonzero and fewer than 600 (resp. 1800) seconds have elapsed — so a call
with `last_fetch = 0` always fetches — and every attempt stamps
`last_fetch = now`. -/
theorem C4_refresh_gating (α β : Type) (fw : Option α) (fh : Option β) (now : Int)
    (sw : CacheState α) (sh : CacheState β) :
    ((update_weather fw now sw).2 = false ↔
      sw.last_fetch ≠ 0 ∧ now - sw.last_fetch < 600) ∧
    ((update_weather fw now sw).2 = true → (update_weather fw now sw).1.last_fetch = now) ∧
    ((update_hf fh now sh).2 = false ↔
      sh.last_fetch ≠ 0 ∧ now - sh.last_fetch < 1800) ∧
    ((update_hf fh now sh).2 = true → (update_hf fh now sh).1.last_fetch = now) := by
  refine ⟨?_, ?_, ?_, ?_⟩
  · simp only [update_weather]
    split_ifs with h
    · exact iff_of_true rfl h
    · exact iff_of_false (by simp) h
  · simp only [update_weather]
    split_ifs with h
    · intro hc; simp at hc
    · intro _; cases fw <;> rfl
  · simp only [update_hf]
    split_ifs with h
    · exact iff_of_true rfl h
    · exact iff_of_false (by simp) h
  · simp only [update_hf]
    split_ifs with h
    · intro hc; simp at hc
    · intro _; cases fh <;> rfl

/-- Helper: what one loop iteration does when the slide duration has
elapsed: advance the index modulo 3, stamp `last_slide_change`, redraw
the new slide. -/
theorem loop_iter_transition {α β : Type} (f : FetchResults α β) (now : Int)
    (st : MainState α β) (h : now - st.last_slide_change ≥ SLIDE_DURATION) :
    (loop_iter f now st).1.current_index = (st.current_index + 1) % 3 ∧
    (loop_iter f now st).1.last_slide_change = now ∧
    (loop_iter f now st).2 = SLIDES[(st.current_index + 1) % 3]? := by
  simp only [loop_iter]
  rw [if_pos h]
  exact ⟨rfl, rfl, rfl⟩

/-- Helper: what one loop iteration does when the slide duration has not
elapsed: no redraw and the rotator variables are unchanged. -/
theorem loop_iter_no_transition {α β : Type} (f : FetchResults α β) (now : Int)
    (st : MainState α β) (h : ¬(now - st.last_slide_change ≥ SLIDE_DURATION)) :
    (loop_iter f now st).2 = none ∧
    (loop_iter f now st).1.current_index = st.current_index ∧
    (loop_iter f now st).1.last_slide_change = st.last_slide_change := by
  simp only [loop_iter]
  rw [if_neg h]
  exact ⟨rfl, rfl, rfl⟩

/-- C3 counterexample: an iteration of the main loop on which the UTC
slide (index 2 of `SLIDES`) is the current slide, a timestamp has been
synced (`ts = some 1000`), and only 5 of the 10 slide-duration seconds
have elapsed, performs no redraw at all (`none`): the clock is not
re-rendered on every loop iteration, only when a slide transition
fires. -/
theorem C3_counterexample :
    (loop_iter (⟨none, none, none⟩ : FetchResults Unit Unit) 5
        ⟨⟨none, 0⟩, ⟨none, 0⟩, ⟨some 1000, 2⟩, 2, 0⟩).2 = none ∧
    SLIDES[2]? = some Slide.utc ∧
    (⟨some 1000, 2⟩ : UtcState).ts.isSome = true := by
  exact ⟨rfl, rfl, rfl⟩

/-- C3 (amended): the UTC slide is redrawn only when a slide transition
fires (`now - last_slide_change ≥ SLIDE_DURATION`), not on every loop
iteration; each such render of a synced state reads the live RTC value at
render time — the rendered hh:mm:ss fields are computed from the live
reading and are independent of the cached timestamp — so the displayed
seconds are live as of the redraw, and stay frozen between redraws. -/
theorem C3_utc_clock_live_per_render (α β : Type) (f : FetchResults α β) (now : Int)
    (st : MainState α β) (ts1 ts2 ls1 ls2 live : Int) :
    ((loop_iter f now st).2 = none ↔ ¬(now - st.last_slide_change ≥ SLIDE_DURATION)) ∧
    draw_utc_slide ⟨some ts1, ls1⟩ live = draw_utc_slide ⟨some ts2, ls2⟩ live ∧
    draw_utc_slide ⟨some ts1, ls1⟩ live =
      UtcRender.clock (gm_hour live) (gm_min live) (gm_sec live)
        (gm_hour (live + LOCAL_OFFSET_HOURS * 3600))
        (gm_min (live + LOCAL_OFFSET_HOURS * 3600))
        (gm_sec (live + LOCAL_OFFSET_HOURS * 3600)) := by
  refine ⟨?_, rfl, rfl⟩
  by_cases hc : now - st.last_slide_change ≥ SLIDE_DURATION
  · obtain ⟨_, _, hd⟩ := loop_iter_transition f now st hc
    refine iff_of_false ?_ (not_not_intro hc)
    rw [hd, List.getElem?_eq_getElem
      (by simpa [SLIDES] using Nat.mod_lt (st.current_index + 1) (by norm_num))]
    simp
  · obtain ⟨hd, _, _⟩ := loop_iter_no_transition f now st hc
    exact iff_of_true hd hc

/-- C5: Slide rotation.  A transition — with its single accompanying
redraw — occurs exactly when `now - last_slide_change ≥ 10` seconds; one
elapse moves Weather to Hf, Hf to Utc, Utc back to Weather (the fixed
cycle of length 3); and starting from the Weather slide, after exactly 3
elapses the current slide is Weather again and is the slide redrawn. -/
theorem C5_slide_rotation (α β : Type) (f1 f2 f3 : FetchResults α β) (t1 t2 t3 : Int)
    (st : MainState α β) :
    ((loop_iter f1 t1 st).2.isSome ↔ t1 - st.last_slide_change ≥ SLIDE_DURATION) ∧
    (st.current_index = 0 → t1 - st.last_slide_change ≥ SLIDE_DURATION →
      (loop_iter f1 t1 st).1.current_index = 1 ∧ (loop_iter f1 t1 st).2 = some Slide.hf) ∧
    (st.current_index = 1 → t1 - st.last_slide_change ≥ SLIDE_DURATION →
      (loop_iter f1 t1 st).1.current_index = 2 ∧ (loop_iter f1 t1 st).2 = some Slide.utc) ∧
    (st.current_index = 2 → t1 - st.last_slide_change ≥ SLIDE_DURATION →
      (loop_iter f1 t1 st).1.current_index = 0 ∧
      (loop_iter f1 t1 st).2 = some Slide.weather) ∧
    (st.current_index = 0 → t1 - st.last_slide_change ≥ SLIDE_DURATION →
      t2 - t1 ≥ SLIDE_DURATION → t3 - t2 ≥ SLIDE_DURATION →
      (loop_iter f3 t3 (loop_iter f2 t2 (loop_iter f1 t1 st).1).1).1.current_index = 0 ∧
      (loop_iter f3 t3 (loop_iter f2 t2 (loop_iter f1 t1 st).1).1).2 =
        some Slide.weather) := by
  refine ⟨?_, ?_, ?_, ?_, ?_⟩
  · by_cases hc : t1 - st.last_slide_change ≥ SLIDE_DURATION
    · obtain ⟨_, _, hd⟩ := loop_iter_transition f1 t1 st hc
      refine iff_of_true ?_ hc
      rw [hd, List.getElem?_eq_getElem
        (by simpa [SLIDES] using Nat.mod_lt (st.current_index + 1) (by norm_num))]
      rfl
    · obtain ⟨hd, _, _⟩ := loop_iter_no_transition f1 t1 st hc
      rw [hd]
      exact iff_of_false (by simp) hc
  · intro hidx htime
    obtain ⟨hi, _, hd⟩ := loop_iter_transition f1 t1 st htime
    rw [hidx] at hi hd
    exact ⟨hi.trans rfl, hd.trans rfl⟩
  · intro hidx htime
    obtain ⟨hi, _, hd⟩ := loop_iter_transition f1 t1 st htime
    rw [hidx] at hi hd
    exact ⟨hi.trans rfl, hd.trans rfl⟩
  · intro hidx htime
    obtain ⟨hi, _, hd⟩ := loop_iter_transition f1 t1 st htime
    rw [hidx] at hi hd
    exact ⟨hi.trans rfl, hd.trans rfl⟩
  · intro hidx h1 h2 h3
    obtain ⟨hi1, hl1, _⟩ := loop_iter_transition f1 t1 st h1
    rw [hidx] at hi1
    have e1 : (loop_iter f1 t1 st).1.current_index = 1 := hi1.trans rfl
    have h2' : t2 - (loop_iter f1 t1 st).1.last_slide_change ≥ SLIDE_DURATION := by
      rw [hl1]; exact h2
    obtain ⟨hi2, hl2, _⟩ := loop_iter_transition f2 t2 _ h2'
    rw [e1] at hi2
    have e2 : (loop_iter f2 t2 (loop_iter f1 t1 st).1).1.current_index = 2 :=
      hi2.trans rfl
    have h3' : t3 - (loop_iter f2 t2 (loop_iter f1 t1 st).1).1.last_slide_change ≥
        SLIDE_DURATION := by
      rw [hl2]; exact h3
    obtain ⟨hi3, _, hd3⟩ := loop_iter_transition f3 t3 _ h3'
    rw [e2] at hi3 hd3
    exact ⟨hi3.trans rfl, hd3.trans rfl⟩

/-- Helper: on the 240x320 panel, a logically in-bounds plot issues
exactly the write `(y, height - 1 - x)` with the two color bytes. -/
theorem draw_pixel_eq_of_in_bounds (x y : Int) (c : Nat) (hb : in_logical_bounds x y) :
    draw_pixel ILI9341 x y c = some ⟨y, 320 - 1 - x, c / 256 % 256, c % 256⟩ := by
  simp only [in_logical_bounds, LOGICAL_WIDTH, LOGICAL_HEIGHT] at hb
  obtain ⟨h1, h2, h3, h4⟩ := hb
  simp only [draw_pixel, ILI9341, LOGICAL_WIDTH, LOGICAL_HEIGHT]
  rw [if_neg (by omega), if_neg (by omega)]

/-- C6: Coordinate mapping.  Every logically in-bounds `(x, y)` is
plotted at physical `(y, height - 1 - x)`; in particular logical `(0,0)`
maps to physical `(0, height - 1)` and logical `(LOGICAL_WIDTH - 1, 0)`
maps to physical `(0, 0)`; and the mapping is injective over the logical
canvas's valid range. -/
theorem C6_coordinate_mapping (x y x2 y2 : Int) (c : Nat)
    (hb : in_logical_bounds x y) (hb2 : in_logical_bounds x2 y2) :
    draw_pixel ILI9341 x y c =
      some ⟨y, ILI9341.height - 1 - x, c / 256 % 256, c % 256⟩ ∧
    draw_pixel ILI9341 0 0 c =
      some ⟨0, ILI9341.height - 1, c / 256 % 256, c % 256⟩ ∧
    draw_pixel ILI9341 (LOGICAL_WIDTH - 1) 0 c =
      some ⟨0, 0, c / 256 % 256, c % 256⟩ ∧
    (draw_pixel ILI9341 x y c = draw_pixel ILI9341 x2 y2 c → x = x2 ∧ y = y2) := by
  refine ⟨draw_pixel_eq_of_in_bounds x y c hb, rfl, rfl, ?_⟩
  intro heq
  rw [draw_pixel_eq_of_in_bounds x y c hb, draw_pixel_eq_of_in_bounds x2 y2 c hb2] at heq
  simp only [Option.some.injEq, PixelWrite.mk.injEq] at heq
  obtain ⟨hy, hx, -⟩ := heq
  exact ⟨by omega, hy⟩

/-- C6 witness: the theorem applied at the concrete in-bounds points
`(7, 11)` and `(5, 6)` with color `0xF800`. -/
theorem C6_coordinate_mapping_witness :
    draw_pixel ILI9341 7 11 0xF800 =
      some ⟨11, ILI9341.height - 1 - 7, 0xF800 / 256 % 256, 0xF800 % 256⟩ :=
  (C6_coordinate_mapping 7 11 5 6 0xF800 (by decide) (by decide)).1

/-- C8: Out-of-range plot is a silent no-op.  For every display, color
and `(x, y)` failing the logical bounds check, `_draw_pixel` issues no
window-set and no byte write (and, being total, raises nothing the
caller could see). -/
theorem C8_out_of_range_noop (disp : Display) (x y : Int) (c : Nat)
    (h : x < 0 ∨ y < 0 ∨ x ≥ LOGICAL_WIDTH ∨ y ≥ LOGICAL_HEIGHT) :
    draw_pixel disp x y c = none := by
  simp only [draw_pixel]
  rw [if_pos h]

/-- C8 witness: the theorem applied at `x = -1`. -/
theorem C8_out_of_range_noop_witness : draw_pixel ILI9341 (-1) 5 0 = none :=
  C8_out_of_range_noop ILI9341 (-1) 5 0 (Or.inl (by decide))

/-- C9: with physical geometry 240x320, every logical coordinate passing
the logical bounds check maps to a physical coordinate inside the
physical bounds, so the second (physical) early return of `_draw_pixel`
is never taken and every in-bounds plot issues exactly one pixel
write. -/
theorem C9_physical_check_redundant (x y : Int) (c : Nat) (hb : in_logical_bounds x y) :
    (0 ≤ y ∧ y < ILI9341.width ∧
      0 ≤ ILI9341.height - 1 - x ∧ ILI9341.height - 1 - x < ILI9341.height) ∧
    (draw_pixel ILI9341 x y c).isSome = true := by
  have hb' := hb
  simp only [in_logical_bounds, LOGICAL_WIDTH, LOGICAL_HEIGHT] at hb'
  obtain ⟨h1, h2, h3, h4⟩ := hb'
  refine ⟨?_, ?_⟩
  · simp only [ILI9341]
    omega
  · rw [draw_pixel_eq_of_in_bounds x y c hb]
    rfl

/-- C9 witness: the theorem applied at the concrete point `(5, 6)`. -/
theorem C9_physical_check_redundant_witness :
    (draw_pixel ILI9341 5 6 0).isSome = true :=
  (C9_physical_check_redundant 5 6 0 (by decide)).2

/-- C7: HF quality classification.  `_hf_quality` substitutes 0 for a
missing, empty or non-numeric field, returns POOR/RED exactly when
`k ≥ 5` or `flux < 80` (tested first), else GOOD/GREEN exactly when
`k ≤ 2` and `flux ≥ 120`, else FAIR/YELLOW; `(flux=150, k=1)` is
GOOD/GREEN, `(flux=50, k=1)` is POOR/RED, and any input with absent
solar flux is POOR/RED. -/
theorem C7_hf_quality_classification (sf k : FieldVal) :
    (_hf_quality sf k = ("POOR", RED) ↔
      parse_number k ≥ 5 ∨ parse_number sf < 80) ∧
    (_hf_quality sf k = ("GOOD", GREEN) ↔
      ¬(parse_number k ≥ 5 ∨ parse_number sf < 80) ∧
        parse_number k ≤ 2 ∧ parse_number sf ≥ 120) ∧
    (_hf_quality sf k = ("FAIR", YELLOW) ↔
      ¬(parse_number k ≥ 5 ∨ parse_number sf < 80) ∧
        ¬(parse_number k ≤ 2 ∧ parse_number sf ≥ 120)) ∧
    _hf_quality (.numeric 150) (.numeric 1) = ("GOOD", GREEN) ∧
    _hf_quality (.numeric 50) (.numeric 1) = ("POOR", RED) ∧
    (∀ kv : FieldVal, _hf_quality .missing kv = ("POOR", RED)) := by
  refine ⟨?_, ?_, ?_, by decide, by decide, fun kv => ?_⟩
  · simp only [_hf_quality]
    split_ifs with h1 h2
    · exact iff_of_true rfl h1
    · exact iff_of_false (by decide) h1
    · exact iff_of_false (by decide) h1
  · simp only [_hf_quality]
    split_ifs with h1 h2
    · exact iff_of_false (by decide) (fun hr => hr.1 h1)
    · exact iff_of_true rfl ⟨h1, h2⟩
    · exact iff_of_false (by decide) (fun hr => h2 hr.2)
  · simp only [_hf_quality]
    split_ifs with h1 h2
    · exact iff_of_false (by decide) (fun hr => hr.1 h1)
    · exact iff_of_false (by decide) (fun hr => hr.2 h2)
    · exact iff_of_true rfl ⟨h1, h2⟩
  · simp only [_hf_quality]
    rw [if_pos (Or.inr (by norm_num [parse_number]))]

/-- C7 witness: the classification evaluated with both fields present
and numeric, `flux = 100`, `k = 3` (the FAIR band). -/
theorem C7_hf_quality_classification_witness :
    _hf_quality (.numeric 100) (.numeric 3) = ("FAIR", YELLOW) := by
  have h := (C7_hf_quality_classification (.numeric 100) (.numeric 3)).2.2.1
  rw [h]
  refine ⟨fun hc => ?_, fun hc => ?_⟩
  · rcases hc with hc | hc <;> revert hc <;> norm_num [parse_number]
  · revert hc
    norm_num [parse_number]

/-- Helper: the ASCII uppercase map is idempotent. -/
theorem upper_idem (c : Nat) : upper (upper c) = upper c := by
  unfold upper
  split_ifs <;> omega

/-- C10: text drawing is case-insensitive.  `_draw_char` looks its glyph
up under `ch.upper()`, so drawing a character and drawing its uppercase
produce the same pixel writes and the same cursor advance, and
`draw_text` on a string and on its uppercase image produce the same
write sequence and final cursor. -/
theorem C10_draw_text_case_insensitive (disp : Display) (ch : Nat) (s : List Nat)
    (x y : Int) (color scale : Nat) :
    draw_char disp (upper ch) x y color scale = draw_char disp ch x y color scale ∧
    draw_text disp (s.map upper) x y color scale = draw_text disp s x y color scale := by
  have hchar : ∀ (c : Nat) (cx : Int),
      draw_char disp (upper c) cx y color scale = draw_char disp c cx y color scale := by
    intro c cx
    unfold draw_char
    rw [upper_idem]
  refine ⟨hchar ch x, ?_⟩
  induction s generalizing x with
  | nil => rfl
  | cons c rest ih =>
      simp only [List.map_cons, draw_text]
      rw [hchar c x, ih]

end RotatingDisplay
